import Mathlib

/-!
Shallow embedding of `vendor/ddcloud/resource_firewall_rule.go` (the ddcloud
Terraform provider's firewall-rule resource adapter), with theorems checking
the natural-language specification's claims against it.

Strings are modelled by Lean `String`; Go library helpers used by the file
(`strings.Split`, `strings.ToLower`/`ToUpper`, `strconv.Atoi`) are embedded as
structurally recursive functions over the character list, so every definition
evaluates by kernel reduction. Fallible Go functions returning `error` are
embedded with `Except String`; Go `*string` / `*int` become `Option`.
-/

namespace DDCloud

/-- Go `strings.ToLower` restricted to the ASCII inputs this resource uses
(`Char.toLower` lowers exactly the ASCII range). -/
def goToLower (s : String) : String := String.mk (s.data.map Char.toLower)

/-- Go `strings.ToUpper` restricted to ASCII, as used for placement,
ip_version and protocol. -/
def goToUpper (s : String) : String := String.mk (s.data.map Char.toUpper)

/-- Accumulated numeric value of a run of base-10 digits, as `strconv.Atoi`
computes it. -/
def digitsVal (cs : List Char) : Nat :=
  cs.foldl (fun acc c => acc * 10 + (c.toNat - 48)) 0

/-- Value of a digit run: defined exactly when the run is nonempty and all
base-10 digits. -/
def digitsToNat (cs : List Char) : Option Nat :=
  if !cs.isEmpty && cs.all Char.isDigit then some (digitsVal cs) else none

/-- Unbounded value of a signed base-10 numeral on a character list: the
digit-run reading inside `strconv.Atoi`, before its 64-bit range check. -/
def numValueChars (cs : List Char) : Option Int :=
  match cs with
  | [] => none
  | c :: rest =>
    if c = '+' then (digitsToNat rest).map (fun n => (n : Int))
    else if c = '-' then (digitsToNat rest).map (fun n => -(n : Int))
    else (digitsToNat (c :: rest)).map (fun n => (n : Int))

/-- Unbounded value of a signed base-10 numeral string. -/
def numValue (s : String) : Option Int := numValueChars s.data

/-- Largest value of Go's 64-bit `int`. -/
def int64Max : Int := 9223372036854775807

/-- Smallest value of Go's 64-bit `int`. -/
def int64Min : Int := -9223372036854775808

/-- The `strconv.Atoi` error for a string that is not a signed base-10
numeral. -/
def atoiErrSyntax (s : String) : String :=
  "strconv.Atoi: parsing \"" ++ s ++ "\": invalid syntax"

/-- The `strconv.Atoi` error for a numeral whose value is outside the 64-bit
int range. -/
def atoiErrRange (s : String) : String :=
  "strconv.Atoi: parsing \"" ++ s ++ "\": value out of range"

/-- Go `strconv.Atoi` on a 64-bit platform, returning value and error as the
Go function does: 0 with an invalid-syntax error for a malformed string, the
nearer bound with a value-out-of-range error for a numeral outside
[-2^63, 2^63 - 1], otherwise the value with no error. -/
def atoi (s : String) : Int × Option String :=
  match numValue s with
  | none => (0, some (atoiErrSyntax s))
  | some v =>
    if v < int64Min then (int64Min, some (atoiErrRange s))
    else if int64Max < v then (int64Max, some (atoiErrRange s))
    else (v, none)

/-- Whether a character list is a base-10 integer literal: an optional sign
followed by one or more digits. Spec-side characterization, compared with
`numValueChars` in the theorems below. -/
def isBase10IntegerChars (cs : List Char) : Bool :=
  match cs with
  | [] => false
  | c :: rest =>
    if c = '+' || c = '-' then !rest.isEmpty && rest.all Char.isDigit
    else (c :: rest).all Char.isDigit

/-- Whether a string is a base-10 integer literal. -/
def isBase10Integer (s : String) : Bool := isBase10IntegerChars s.data

/-- Whether a string is a base-10 integer literal whose value fits Go's
64-bit int: exactly the strings `strconv.Atoi` accepts. -/
def isInt64Base10 (s : String) : Bool :=
  match numValue s with
  | none => false
  | some v => decide (int64Min ≤ v) && decide (v ≤ int64Max)

/-- Go `strings.Split` with a one-character separator, over the character
list. Splitting the empty list yields `[[]]`, as in Go. -/
def splitChar (sep : Char) : List Char → List (List Char)
  | [] => [[]]
  | c :: rest =>
    if c = sep then [] :: splitChar sep rest
    else
      match splitChar sep rest with
      | [] => [[c]]
      | h :: t => (c :: h) :: t

/-- Go `strings.Split s sep` for the one-character separators this file uses. -/
def goSplit (s : String) (sep : Char) : List String :=
  (splitChar sep s.data).map String.mk

/-- Modelled from the spec: the compute library's accept action constant
(spec section 3: "Action (normalized to one of {ACCEPT, DROP})"). -/
def FirewallRuleActionAccept : String := "ACCEPT"

/-- Modelled from the spec: the compute library's drop action constant. -/
def FirewallRuleActionDrop : String := "DROP"

/-- The synonym table of `normalizeFirewallRuleAction` (source lines 368-388):
a case-insensitive switch on the action, unrecognized values pass through. -/
def normalizeFirewallRuleAction (action : String) : String :=
  if goToLower action = "accept" then FirewallRuleActionAccept
  else if goToLower action = "accept_decisively" then FirewallRuleActionAccept
  else if goToLower action = "allow" then FirewallRuleActionAccept
  else if goToLower action = "drop" then FirewallRuleActionDrop
  else if goToLower action = "deny" then FirewallRuleActionDrop
  else action

/-- Modelled from the spec: `resourcePropertyHelper.GetOptionalString` with
`allowEmpty = false` (defined in a repository file outside `src/`) reads an
optional string field and returns nil for an absent or empty value (spec:
"literal `any` or empty → no port constraint"; optional fields are flat
strings, empty when unset). -/
def getOptionalString (value : String) : Option String :=
  if value = "" then none else some value

/-- Source `parseFirewallPort` (lines 390-401): nil or the literal `"any"`
yields no port constraint; anything else goes through `strconv.Atoi`. -/
def parseFirewallPort (port : Option String) : Except String (Option Int) :=
  match port with
  | none => Except.ok none
  | some p =>
    if p = "any" then Except.ok none
    else
      match atoi p with
      | (_, some e) => Except.error e
      | (parsedPort, none) => Except.ok (some parsedPort)

/-- Source `parseNetworkAndPrefix` (lines 417-432): split on `/`, require
exactly two components, parse the second with `strconv.Atoi`. The Go function
uses named results, so a failed parse returns with `ok` false and `prefixSize`
holding whatever value `Atoi` returned (0 on a syntax error, the clamped bound
on a range error). -/
def parseNetworkAndPrefix (networkAndPrefixSize : String) : String × Int × Bool :=
  match goSplit networkAndPrefixSize '/' with
  | [baseAddress, prefixStr] =>
    match atoi prefixStr with
    | (prefixSize, some _) => (baseAddress, prefixSize, false)
    | (prefixSize, none) => (baseAddress, prefixSize, true)
  | _ => ("", 0, false)

/-- Modelled from the spec: the four mutually exclusive matching modes the
compute library's `MatchSource*` / `MatchDestination*` configuration methods
select (spec sections 3 and 9: a tagged union
AnyAddress | AnyAddressWithPort | Address | Network, each with the resolved
optional port). -/
inductive ScopeMatch where
  | addressAndPort (address : String) (port : Option Int)
  | networkAndPort (baseAddress : String) (prefixSize : Int) (port : Option Int)
  | anyAddressWithPort (port : Option Int)
  | anyMatch
  deriving Repr, DecidableEq

/-- The flat snapshot of declared fields the host hands each lifecycle call
(the 13 schema fields of the resource; empty string = optional field unset,
matching `GetOptionalString`). Defaults mirror the schema's defaults
(`enabled` true, `placement` "first"). -/
structure FirewallRuleFields where
  networkdomain : String := ""
  name : String := ""
  action : String := ""
  enabled : Bool := true
  placement : String := "first"
  placementRelativeTo : String := ""
  ipVersion : String := ""
  protocol : String := ""
  sourceAddress : String := ""
  sourceNetwork : String := ""
  sourcePort : String := ""
  destinationAddress : String := ""
  destinationNetwork : String := ""
  destinationPort : String := ""
  deriving Repr, DecidableEq

/-- Source `configureSourceScope` (lines 297-330), returning the selected
matching mode instead of mutating the configuration in place. -/
def configureSourceScope (f : FirewallRuleFields) : Except String ScopeMatch :=
  let sourceAddress := getOptionalString f.sourceAddress
  let sourceNetwork := getOptionalString f.sourceNetwork
  match parseFirewallPort (getOptionalString f.sourcePort) with
  | Except.error e => Except.error e
  | Except.ok sourcePort =>
    match sourceAddress with
    | some address => Except.ok (ScopeMatch.addressAndPort address sourcePort)
    | none =>
      match sourceNetwork with
      | some network =>
        match parseNetworkAndPrefix network with
        | (baseAddress, prefixSize, true) =>
          Except.ok (ScopeMatch.networkAndPort baseAddress prefixSize sourcePort)
        | (_, _, false) =>
          Except.error ("Source network '" ++ network ++ "' for firewall rule '" ++
            f.name ++ "' is invalid (must be 'BaseAddress/PrefixSize')")
      | none =>
        match sourcePort with
        | some _ => Except.ok (ScopeMatch.anyAddressWithPort sourcePort)
        | none => Except.ok ScopeMatch.anyMatch

/-- Source `configureDestinationScope` (lines 332-366). The error message for
a malformed destination network begins with the literal "Source network",
exactly as the source's format string at line 350 does. -/
def configureDestinationScope (f : FirewallRuleFields) : Except String ScopeMatch :=
  let destinationNetwork := getOptionalString f.destinationNetwork
  let destinationAddress := getOptionalString f.destinationAddress
  match parseFirewallPort (getOptionalString f.destinationPort) with
  | Except.error e => Except.error e
  | Except.ok destinationPort =>
    match destinationAddress with
    | some address => Except.ok (ScopeMatch.addressAndPort address destinationPort)
    | none =>
      match destinationNetwork with
      | some network =>
        match parseNetworkAndPrefix network with
        | (baseAddress, prefixSize, true) =>
          Except.ok (ScopeMatch.networkAndPort baseAddress prefixSize destinationPort)
        | (_, _, false) =>
          Except.error ("Source network '" ++ network ++ "' for firewall rule '" ++
            f.name ++ "' is invalid (must be 'BaseAddress/PrefixSize')")
      | none =>
        match destinationPort with
        | some _ => Except.ok (ScopeMatch.anyAddressWithPort destinationPort)
        | none => Except.ok ScopeMatch.anyMatch

/-- Placement block of the request payload (source lines 162-169). -/
structure FirewallRulePlacement where
  position : String
  relativeToRuleName : Option String
  deriving Repr, DecidableEq

/-- The request payload sent to the remote `CreateFirewallRule` call
(`compute.FirewallRuleConfiguration` as this file populates it). The two
scopes are `none` until the configure functions select a matching mode. -/
structure FirewallRuleConfiguration where
  name : String
  action : String
  placement : FirewallRulePlacement
  enabled : Bool
  networkDomainID : String
  ipVersion : String
  protocol : String
  sourceScope : Option ScopeMatch
  destinationScope : Option ScopeMatch
  deriving Repr, DecidableEq

/-- The configuration literal of `resourceFirewallRuleCreate`, lines 157-180.
Line 159 stores the normalized action, but line 180
(`configuration.Action = data.Get(resourceKeyFirewallRuleAction).(string)`)
then overwrites the Action field with the raw declared value, so the record
update below is part of the source, not a simplification. -/
def buildFirewallRuleConfiguration (fields : FirewallRuleFields) : FirewallRuleConfiguration :=
  let configuration : FirewallRuleConfiguration :=
    { name := fields.name
      action := normalizeFirewallRuleAction fields.action
      placement :=
        { position := goToUpper fields.placement
          relativeToRuleName := getOptionalString fields.placementRelativeTo }
      enabled := fields.enabled
      networkDomainID := fields.networkdomain
      ipVersion := goToUpper fields.ipVersion
      protocol := goToUpper fields.protocol
      sourceScope := none
      destinationScope := none }
  { configuration with action := fields.action }

/-- Go `time.Minute` in nanoseconds. -/
def timeMinute : Nat := 60 * 1000000000

/-- Source line 28: `resourceCreateTimeoutFirewallRule = 30 * time.Minute`. -/
def resourceCreateTimeoutFirewallRule : Nat := 30 * timeMinute

/-- Source line 29: `resourceUpdateTimeoutFirewallRule = 10 * time.Minute`. -/
def resourceUpdateTimeoutFirewallRule : Nat := 10 * timeMinute

/-- Source line 30: `resourceDeleteTimeoutFirewallRule = 15 * time.Minute`. -/
def resourceDeleteTimeoutFirewallRule : Nat := 15 * timeMinute

/-- Local host-managed state of one resource instance: the stored remote ID
(`data.Id()`, empty when cleared) and the stored field snapshot. -/
structure ResourceState where
  id : String
  fields : FirewallRuleFields
  deriving Repr, DecidableEq

/-- Externally observable steps of a create call, in order: the domain lock,
the remote create, `data.SetId`, the deploy wait with its timeout (in
nanoseconds), the deferred unlock. -/
inductive CreateEvent where
  | acquireDomainLock (domainID : String)
  | remoteCreateFirewallRule (configuration : FirewallRuleConfiguration)
  | setId (id : String)
  | remoteWaitForDeploy (ruleID : String) (timeout : Nat)
  | releaseDomainLock (domainID : String)
  deriving Repr, DecidableEq

/-- Outcomes the external API client returns during one create call:
`CreateFirewallRule` yields a rule ID or an error, `WaitForDeploy` an error
or success. -/
structure CreateApiBehavior where
  createResult : Except String String
  waitForDeployResult : Except String Unit
  deriving Repr

/-- Result of one create call: final local state, the ordered event trace,
and the error the function returns (`none` = nil). -/
structure CreateOutcome where
  state : ResourceState
  events : List CreateEvent
  error : Option String
  deriving Repr, DecidableEq

/-- Source `resourceFirewallRuleCreate` (lines 152-211), with the API client's
responses passed in explicitly. A scope-resolution error returns before the
domain lock and before any remote call; on a successful remote create the ID
is stored and then the deploy wait runs, its error becoming the call's
result. -/
def resourceFirewallRuleCreate (state : ResourceState) (api : CreateApiBehavior) :
    CreateOutcome :=
  let fields := state.fields
  let configuration := buildFirewallRuleConfiguration fields
  match configureSourceScope fields with
  | Except.error err => { state := state, events := [], error := some err }
  | Except.ok sourceScope =>
    match configureDestinationScope fields with
    | Except.error err => { state := state, events := [], error := some err }
    | Except.ok destinationScope =>
      let configuration := { configuration with
        sourceScope := some sourceScope
        destinationScope := some destinationScope }
      let domainID := configuration.networkDomainID
      match api.createResult with
      | Except.error err =>
        { state := state
          events := [CreateEvent.acquireDomainLock domainID,
            CreateEvent.remoteCreateFirewallRule configuration,
            CreateEvent.releaseDomainLock domainID]
          error := some err }
      | Except.ok ruleID =>
        { state := { state with id := ruleID }
          events := [CreateEvent.acquireDomainLock domainID,
            CreateEvent.remoteCreateFirewallRule configuration,
            CreateEvent.setId ruleID,
            CreateEvent.remoteWaitForDeploy ruleID resourceCreateTimeoutFirewallRule,
            CreateEvent.releaseDomainLock domainID]
          error :=
            match api.waitForDeployResult with
            | Except.error err => some err
            | Except.ok _ => none }

/-- Modelled from the spec: the remote rule `GetFirewallRule` returns; only
its `Enabled` flag is consumed by this file ("copy the remote `Enabled` flag
into local state"). -/
structure FirewallRule where
  enabled : Bool
  deriving Repr, DecidableEq

/-- Result of one read call: updated local state and the returned error. -/
structure ReadOutcome where
  state : ResourceState
  error : Option String
  deriving Repr, DecidableEq

/-- Source `resourceFirewallRuleRead` (lines 214-237): an API error is
returned as-is; a nil rule clears the stored ID and returns nil; otherwise
only the local `enabled` field is overwritten with the remote flag. -/
def resourceFirewallRuleRead (state : ResourceState)
    (getFirewallRuleResult : Except String (Option FirewallRule)) : ReadOutcome :=
  match getFirewallRuleResult with
  | Except.error err => { state := state, error := some err }
  | Except.ok none => { state := { state with id := "" }, error := none }
  | Except.ok (some rule) =>
    { state := { state with fields := { state.fields with enabled := rule.enabled } }
      error := none }

/-- Externally observable steps of an update call. -/
inductive UpdateEvent where
  | acquireDomainLock (domainID : String)
  | remoteEditFirewallRule (id : String) (enable : Bool)
  | releaseDomainLock (domainID : String)
  deriving Repr, DecidableEq

/-- Result of one update call: the ordered event trace and the returned
error. -/
structure UpdateOutcome where
  events : List UpdateEvent
  error : Option String
  deriving Repr, DecidableEq

/-- Source `resourceFirewallRuleUpdate` (lines 240-272): the domain lock is
taken unconditionally; `EditFirewallRule` runs only under
`data.HasChange("enabled")`, its error is propagated, and otherwise the call
returns nil. -/
def resourceFirewallRuleUpdate (state : ResourceState) (hasChangeEnabled : Bool)
    (editFirewallRuleResult : Except String Unit) : UpdateOutcome :=
  let id := state.id
  let domainID := state.fields.networkdomain
  if hasChangeEnabled then
    let enable := state.fields.enabled
    match editFirewallRuleResult with
    | Except.error err =>
      { events := [UpdateEvent.acquireDomainLock domainID,
          UpdateEvent.remoteEditFirewallRule id enable,
          UpdateEvent.releaseDomainLock domainID]
        error := some err }
    | Except.ok _ =>
      { events := [UpdateEvent.acquireDomainLock domainID,
          UpdateEvent.remoteEditFirewallRule id enable,
          UpdateEvent.releaseDomainLock domainID]
        error := none }
  else
    { events := [UpdateEvent.acquireDomainLock domainID,
        UpdateEvent.releaseDomainLock domainID]
      error := none }

/-- The success value of an `Except`, `none` on error. -/
def exceptToOption : Except String α → Option α
  | Except.ok a => some a
  | Except.error _ => none

/-- The error of an `Except`, `none` on success. -/
def exceptError : Except String α → Option String
  | Except.ok _ => none
  | Except.error e => some e

/-- Whether an update event is the remote `EditFirewallRule` call. -/
def isRemoteEdit : UpdateEvent → Bool
  | UpdateEvent.remoteEditFirewallRule _ _ => true
  | _ => false

/-- The Action field of the configuration a create trace sent to the remote
`CreateFirewallRule` call, if any. -/
def createdAction (events : List CreateEvent) : Option String :=
  events.findSome? fun e =>
    match e with
    | CreateEvent.remoteCreateFirewallRule configuration => some configuration.action
    | _ => none

/-- The spec's optional-port step, written from its words, with "parse as a
base-10 integer" read as `strconv.Atoi`'s acceptance (a signed base-10
numeral within the 64-bit int range): literal "any" or an absent/empty field
means no port constraint, an accepted numeral is the port, anything else
fails (`none`). -/
def specParsePort (port : Option String) : Option (Option Int) :=
  match port with
  | none => some none
  | some s =>
    if s = "any" then some none
    else
      match numValue s with
      | some v => if int64Min ≤ v ∧ v ≤ int64Max then some (some v) else none
      | none => none

/-- The spec's network step, written from its words, with the prefix size
parsed by `strconv.Atoi`'s acceptance: split on `/`, require exactly two
components with an accepted base-10 integer prefix size, else fail. -/
def specParseNetwork (network : String) : Option (String × Int) :=
  match goSplit network '/' with
  | [baseAddress, prefixStr] =>
    match numValue prefixStr with
    | some v => if int64Min ≤ v ∧ v ≤ int64Max then some (baseAddress, v) else none
    | none => none
  | _ => none

/-- The spec's scope-resolution algorithm (section 4.1), written from its
words: resolve the port, then pick the first applicable mode in the priority
order address > network > port-only > match-any. The four arms are mutually
exclusive and exhaust the presence combinations of the inputs; `none` is a
validation failure. -/
def specResolveScope (address network port : Option String) : Option ScopeMatch :=
  match specParsePort port with
  | none => none
  | some p =>
    match address with
    | some a => some (ScopeMatch.addressAndPort a p)
    | none =>
      match network with
      | some n =>
        match specParseNetwork n with
        | some (b, sz) => some (ScopeMatch.networkAndPort b sz p)
        | none => none
      | none =>
        match p with
        | some _ => some (ScopeMatch.anyAddressWithPort p)
        | none => some ScopeMatch.anyMatch

/-- Concrete declared fields exercising the raw-action overwrite: the
declared action is the synonym "allow". -/
def c1Fields : FirewallRuleFields :=
  { networkdomain := "domain-1", name := "my-rule", action := "allow",
    ipVersion := "ipv4", protocol := "tcp" }

/-- Fresh local state for the `c1Fields` create call. -/
def c1State : ResourceState := { id := "", fields := c1Fields }

/-- API behavior for the `c1Fields` create call: remote create succeeds. -/
def c1Api : CreateApiBehavior :=
  { createResult := Except.ok "rule-id-1", waitForDeployResult := Except.ok () }

/-- Concrete declared fields with a malformed destination network (no `/`). -/
def c3Fields : FirewallRuleFields :=
  { networkdomain := "domain-3", name := "my-rule", action := "allow",
    ipVersion := "ipv4", protocol := "tcp", destinationNetwork := "10.0.0.0" }

/-- Concrete declared fields for a create whose scopes resolve to match-any. -/
def c9Fields : FirewallRuleFields :=
  { networkdomain := "domain-9", name := "rule-nine", action := "accept",
    ipVersion := "ipv4", protocol := "tcp" }

/-- Fresh local state for the `c9Fields` create call. -/
def c9State : ResourceState := { id := "", fields := c9Fields }

/-- API behavior where the remote create succeeds and the deploy wait fails. -/
def c9Api : CreateApiBehavior :=
  { createResult := Except.ok "rule-id-9",
    waitForDeployResult := Except.error "deploy timed out" }

/-- Concrete declared fields with a non-numeric source port. -/
def c10Fields : FirewallRuleFields :=
  { networkdomain := "domain-10", name := "rule-ten", action := "drop",
    ipVersion := "ipv4", protocol := "tcp", sourcePort := "abc" }

/-- Local state for the `c10Fields` create call, with a pre-existing ID so the
frame condition is visible. -/
def c10State : ResourceState := { id := "rule-id-old", fields := c10Fields }

/-- API behavior that would succeed were it ever reached. -/
def c10Api : CreateApiBehavior :=
  { createResult := Except.ok "never-used", waitForDeployResult := Except.ok () }

/-- A digit run parses exactly when it is nonempty and all digits. -/
theorem digitsToNat_isSome (cs : List Char) :
    (digitsToNat cs).isSome = (!cs.isEmpty && cs.all Char.isDigit) := by
  unfold digitsToNat
  split <;> simp_all

/-- The numeral reading succeeds exactly on base-10 integer literals. -/
theorem numValueChars_isSome (cs : List Char) :
    (numValueChars cs).isSome = isBase10IntegerChars cs := by
  cases cs with
  | nil => rfl
  | cons c rest =>
    simp only [numValueChars, isBase10IntegerChars]
    by_cases h1 : c = '+'
    · simp [h1]
      rw [← digitsToNat_isSome]
      cases digitsToNat rest <;> rfl
    · by_cases h2 : c = '-'
      · simp [h1, h2]
        rw [← digitsToNat_isSome]
        cases digitsToNat rest <;> rfl
      · simp [h1, h2]
        have h3 := digitsToNat_isSome (c :: rest)
        simp at h3
        rw [← h3]
        cases digitsToNat (c :: rest) <;> rfl

/-- String version of `numValueChars_isSome`. -/
theorem numValue_isSome (s : String) : (numValue s).isSome = isBase10Integer s :=
  numValueChars_isSome s.data

/-- `strconv.Atoi` reports no error exactly on the accepted numerals. -/
theorem atoi_err_none (s : String) : ((atoi s).2 = none) = (isInt64Base10 s = true) := by
  rcases hn : numValue s with _ | v
  · simp [atoi, isInt64Base10, hn]
  · by_cases h1 : v < int64Min
    · simp [atoi, isInt64Base10, hn, h1]
    · by_cases h2 : int64Max < v
      · simp [atoi, isInt64Base10, hn, h1, h2]
      · simp [atoi, isInt64Base10, hn, h1, h2]
        omega

/-- The port parser of the code agrees with the spec's optional-port step:
same successes with the same values, failures exactly where the spec fails. -/
theorem parseFirewallPort_toOption (port : Option String) :
    exceptToOption (parseFirewallPort port) = specParsePort port := by
  cases port with
  | none => rfl
  | some p =>
    by_cases hp : p = "any"
    · simp [parseFirewallPort, specParsePort, hp, exceptToOption]
    · rcases hn : numValue p with _ | v
      · simp [parseFirewallPort, specParsePort, atoi, hp, hn, exceptToOption]
      · by_cases h1 : v < int64Min
        · have h3 : ¬(int64Min ≤ v ∧ v ≤ int64Max) := by omega
          simp [parseFirewallPort, specParsePort, atoi, hp, hn, h1, h3, exceptToOption]
        · by_cases h2 : int64Max < v
          · have h3 : ¬(int64Min ≤ v ∧ v ≤ int64Max) := by omega
            simp [parseFirewallPort, specParsePort, atoi, hp, hn, h1, h2, h3,
              exceptToOption]
          · have h3 : int64Min ≤ v ∧ v ≤ int64Max := by omega
            simp [parseFirewallPort, specParsePort, atoi, hp, hn, h1, h2, h3,
              exceptToOption]

/-- The network parser of the code agrees with the spec's network step. -/
theorem specParseNetwork_eq (n : String) :
    specParseNetwork n =
      (if (parseNetworkAndPrefix n).2.2 then
        some ((parseNetworkAndPrefix n).1, (parseNetworkAndPrefix n).2.1)
      else none) := by
  unfold specParseNetwork parseNetworkAndPrefix
  rcases hs : goSplit n '/' with _ | ⟨b, _ | ⟨p, _ | _⟩⟩
  · simp
  · simp
  · rcases hn : numValue p with _ | v
    · simp [atoi, hn]
    · by_cases h1 : v < int64Min
      · have h3 : ¬(int64Min ≤ v ∧ v ≤ int64Max) := by omega
        simp [atoi, hn, h1, h3]
      · by_cases h2 : int64Max < v
        · have h3 : ¬(int64Min ≤ v ∧ v ≤ int64Max) := by omega
          simp [atoi, hn, h1, h2, h3]
        · have h3 : int64Min ≤ v ∧ v ≤ int64Max := by omega
          simp [atoi, hn, h1, h2, h3]
  · simp

/-- C4: `parseNetworkAndPrefix` fails (ok = false) whenever the input does
not split on `/` into exactly two components, and whenever the component
after the `/` is not a base-10 integer; it succeeds exactly when that
component is a base-10 integer `strconv.Atoi` accepts (within the 64-bit int
range, which Go additionally requires); `"10.0.0.0/24"` yields base address
`"10.0.0.0"`, prefix size 24, ok = true. -/
theorem parseNetworkAndPrefix_ok (s : String) :
    ((parseNetworkAndPrefix s).2.2 = true ↔
      ∃ b p, goSplit s '/' = [b, p] ∧ isInt64Base10 p = true)
    ∧ (∀ b p, goSplit s '/' = [b, p] → isBase10Integer p = false →
        (parseNetworkAndPrefix s).2.2 = false)
    ∧ ((goSplit s '/').length ≠ 2 → (parseNetworkAndPrefix s).2.2 = false)
    ∧ parseNetworkAndPrefix "10.0.0.0/24" = ("10.0.0.0", 24, true) := by
  refine ⟨?_, ?_, ?_, rfl⟩
  · rcases hs : goSplit s '/' with _ | ⟨b, _ | ⟨p, _ | _⟩⟩ <;>
      simp [parseNetworkAndPrefix, hs]
    rcases hn : numValue p with _ | v
    · simp [atoi, isInt64Base10, hn]
    · by_cases h1 : v < int64Min
      · simp [atoi, isInt64Base10, hn, h1]
      · by_cases h2 : int64Max < v
        · simp [atoi, isInt64Base10, hn, h1, h2]
        · simp [atoi, isInt64Base10, hn, h1, h2]
          exact ⟨b, p, ⟨rfl, rfl⟩, by simp [isInt64Base10, hn]; omega⟩
  · intro b p hbp hb
    rcases hn : numValue p with _ | v
    · simp [parseNetworkAndPrefix, hbp, atoi, hn]
    · exfalso
      have h := numValue_isSome p
      rw [hn, hb] at h
      simp at h
  · intro h
    rcases hs : goSplit s '/' with _ | ⟨b, _ | ⟨p, _ | _⟩⟩
    · simp [parseNetworkAndPrefix, hs]
    · simp [parseNetworkAndPrefix, hs]
    · rw [hs] at h
      simp at h
    · simp [parseNetworkAndPrefix, hs]

/-- C5 counterexample: the port "9999999999999999999" (19 nines, above the
64-bit int maximum 9223372036854775807) is a base-10 integer, yet
`parseFirewallPort` fails on it with Go's value-out-of-range parse error — so
a numeric port string need not yield its parsed value, and parse failures are
not confined to non-numeric strings. -/
theorem parseFirewallPort_overflow :
    isBase10Integer "9999999999999999999" = true
    ∧ parseFirewallPort (some "9999999999999999999") =
        Except.error "strconv.Atoi: parsing \"9999999999999999999\": value out of range" :=
  ⟨by decide, rfl⟩

/-- C5 amended: `parseFirewallPort` yields no port constraint and no error
for an absent/empty or literal `"any"` port; for any other string it returns
the parsed value when the string is a base-10 integer within the 64-bit int
range (such as `"80"`), the invalid-syntax parse error when the string is not
a base-10 integer (such as `"abc"`), and the value-out-of-range parse error
when the string is a base-10 integer beyond that range. -/
theorem parseFirewallPort_spec (s : String) :
    parseFirewallPort none = Except.ok none
    ∧ parseFirewallPort (getOptionalString "") = Except.ok none
    ∧ parseFirewallPort (some "any") = Except.ok none
    ∧ parseFirewallPort (some "80") = Except.ok (some 80)
    ∧ (s ≠ "any" → isBase10Integer s = false →
        parseFirewallPort (some s) = Except.error (atoiErrSyntax s))
    ∧ (∀ v : Int, s ≠ "any" → numValue s = some v → int64Min ≤ v → v ≤ int64Max →
        parseFirewallPort (some s) = Except.ok (some v))
    ∧ (∀ v : Int, s ≠ "any" → numValue s = some v → (v < int64Min ∨ int64Max < v) →
        parseFirewallPort (some s) = Except.error (atoiErrRange s))
    ∧ parseFirewallPort (some "abc") = Except.error (atoiErrSyntax "abc")
    ∧ atoiErrSyntax "abc" = "strconv.Atoi: parsing \"abc\": invalid syntax" := by
  refine ⟨rfl, rfl, rfl, rfl, ?_, ?_, ?_, rfl, rfl⟩
  · intro hp hb
    have hn : numValue s = none := by
      have h := numValue_isSome s
      rw [hb] at h
      rcases hnn : numValue s with _ | v
      · rfl
      · rw [hnn] at h
        simp at h
    simp [parseFirewallPort, hp, atoi, hn]
  · intro v hp hn h1 h2
    have g1 : ¬v < int64Min := by omega
    have g2 : ¬int64Max < v := by omega
    simp [parseFirewallPort, hp, atoi, hn, g1, g2]
  · intro v hp hn hout
    rcases hout with h1 | h2
    · simp [parseFirewallPort, hp, atoi, hn, h1]
    · have g1 : ¬v < int64Min := by
        simp only [int64Min, int64Max] at h2 ⊢
        omega
      simp [parseFirewallPort, hp, atoi, hn, g1, h2]

/-- C6: the action normalization maps every case variant of accept,
accept_decisively and allow to the accept action, every case variant of drop
and deny to the drop action, and returns any other value unchanged. -/
theorem normalizeFirewallRuleAction_spec (s : String) :
    normalizeFirewallRuleAction "ALLOW" = FirewallRuleActionAccept
    ∧ normalizeFirewallRuleAction "accept" = FirewallRuleActionAccept
    ∧ normalizeFirewallRuleAction "Accept_Decisively" = FirewallRuleActionAccept
    ∧ normalizeFirewallRuleAction "Deny" = FirewallRuleActionDrop
    ∧ normalizeFirewallRuleAction "drop" = FirewallRuleActionDrop
    ∧ (goToLower s = "accept" ∨ goToLower s = "accept_decisively" ∨ goToLower s = "allow" →
        normalizeFirewallRuleAction s = FirewallRuleActionAccept)
    ∧ (goToLower s = "drop" ∨ goToLower s = "deny" →
        normalizeFirewallRuleAction s = FirewallRuleActionDrop)
    ∧ (goToLower s ≠ "accept" → goToLower s ≠ "accept_decisively" → goToLower s ≠ "allow" →
        goToLower s ≠ "drop" → goToLower s ≠ "deny" →
        normalizeFirewallRuleAction s = s) := by
  refine ⟨rfl, rfl, rfl, rfl, rfl, ?_, ?_, ?_⟩
  · rintro (h | h | h) <;> simp [normalizeFirewallRuleAction, h]
  · rintro (h | h) <;> simp [normalizeFirewallRuleAction, h]
  · intro h1 h2 h3 h4 h5
    simp [normalizeFirewallRuleAction, h1, h2, h3, h4, h5]

/-- C7: a read that finds the remote rule gone (nil result, no error) clears
the stored ID and returns no error; a read that finds the rule overwrites
only the local `enabled` field with the remote flag (the record updates leave
the ID and every other stored field untouched) and returns no error. -/
theorem resourceFirewallRuleRead_spec (state : ResourceState) (rule : FirewallRule) :
    resourceFirewallRuleRead state (Except.ok none) =
      { state := { state with id := "" }, error := none }
    ∧ resourceFirewallRuleRead state (Except.ok (some rule)) =
      { state := { state with fields := { state.fields with enabled := rule.enabled } }
        error := none } :=
  ⟨rfl, rfl⟩

/-- C8: the remote `EditFirewallRule` call happens exactly when the enabled
field has changed; with no change the trace holds only the lock acquisition
and release, no remote call, and the returned error is nil (an edit error is
propagated only in the changed case). -/
theorem resourceFirewallRuleUpdate_spec (state : ResourceState) (hasChangeEnabled : Bool)
    (editFirewallRuleResult : Except String Unit) :
    ((resourceFirewallRuleUpdate state hasChangeEnabled editFirewallRuleResult).events.any
        isRemoteEdit) = hasChangeEnabled
    ∧ (resourceFirewallRuleUpdate state hasChangeEnabled editFirewallRuleResult).events =
        (if hasChangeEnabled then
          [UpdateEvent.acquireDomainLock state.fields.networkdomain,
           UpdateEvent.remoteEditFirewallRule state.id state.fields.enabled,
           UpdateEvent.releaseDomainLock state.fields.networkdomain]
        else
          [UpdateEvent.acquireDomainLock state.fields.networkdomain,
           UpdateEvent.releaseDomainLock state.fields.networkdomain])
    ∧ (resourceFirewallRuleUpdate state hasChangeEnabled editFirewallRuleResult).error =
        (if hasChangeEnabled then exceptError editFirewallRuleResult else none) := by
  cases hasChangeEnabled <;> rcases editFirewallRuleResult with e | u <;>
    simp [resourceFirewallRuleUpdate, isRemoteEdit, exceptError]

/-- C2: for every combination of the optional scope fields, source-scope and
destination-scope resolution each equal the spec's priority decision tree
(address > network > port-only > match-any, first non-empty wins): same mode
with the same data on success, a validation failure exactly where the spec
fails. The four `ScopeMatch` constructors are the four mutually exclusive
modes, and `specResolveScope` selects exactly one of them for every
combination of present fields. -/
theorem configureScope_priority (f : FirewallRuleFields) :
    exceptToOption (configureSourceScope f) =
      specResolveScope (getOptionalString f.sourceAddress)
        (getOptionalString f.sourceNetwork) (getOptionalString f.sourcePort)
    ∧ exceptToOption (configureDestinationScope f) =
      specResolveScope (getOptionalString f.destinationAddress)
        (getOptionalString f.destinationNetwork) (getOptionalString f.destinationPort) := by
  constructor
  · unfold configureSourceScope specResolveScope
    rw [← parseFirewallPort_toOption]
    rcases hp : parseFirewallPort (getOptionalString f.sourcePort) with e | sp
    · simp [hp, exceptToOption]
    · simp only [hp, exceptToOption]
      rcases ha : getOptionalString f.sourceAddress with _ | a
      · rcases hn : getOptionalString f.sourceNetwork with _ | n
        · rcases sp with _ | v <;> simp [exceptToOption]
        · have hsp := specParseNetwork_eq n
          rcases hpn : parseNetworkAndPrefix n with ⟨b, sz, ok⟩
          rw [hpn] at hsp
          rcases ok with _ | _ <;> simp_all [exceptToOption]
      · simp [exceptToOption]
  · unfold configureDestinationScope specResolveScope
    rw [← parseFirewallPort_toOption]
    rcases hp : parseFirewallPort (getOptionalString f.destinationPort) with e | sp
    · simp [hp, exceptToOption]
    · simp only [hp, exceptToOption]
      rcases ha : getOptionalString f.destinationAddress with _ | a
      · rcases hn : getOptionalString f.destinationNetwork with _ | n
        · rcases sp with _ | v <;> simp [exceptToOption]
        · have hsp := specParseNetwork_eq n
          rcases hpn : parseNetworkAndPrefix n with ⟨b, sz, ok⟩
          rw [hpn] at hsp
          rcases ok with _ | _ <;> simp_all [exceptToOption]
      · simp [exceptToOption]

/-- C9: when the remote create succeeds, the returned rule ID is stored
(`SetId`) before the deploy wait runs, the wait uses the 30-minute create
timeout, the wait's error (if any) is the call's result, and the stored ID
survives a failed wait. -/
theorem create_stores_id_then_waits (state : ResourceState) (api : CreateApiBehavior)
    (ruleID : String) (ss ds : ScopeMatch)
    (hs : configureSourceScope state.fields = Except.ok ss)
    (hd : configureDestinationScope state.fields = Except.ok ds)
    (hc : api.createResult = Except.ok ruleID) :
    (resourceFirewallRuleCreate state api).state.id = ruleID
    ∧ (resourceFirewallRuleCreate state api).events =
        [CreateEvent.acquireDomainLock state.fields.networkdomain,
         CreateEvent.remoteCreateFirewallRule
           { buildFirewallRuleConfiguration state.fields with
             sourceScope := some ss, destinationScope := some ds },
         CreateEvent.setId ruleID,
         CreateEvent.remoteWaitForDeploy ruleID resourceCreateTimeoutFirewallRule,
         CreateEvent.releaseDomainLock state.fields.networkdomain]
    ∧ resourceCreateTimeoutFirewallRule = 30 * timeMinute
    ∧ (resourceFirewallRuleCreate state api).error = exceptError api.waitForDeployResult := by
  rcases hw : api.waitForDeployResult with e | u <;>
    simp [resourceFirewallRuleCreate, buildFirewallRuleConfiguration, hs, hd, hc, hw,
      exceptError, resourceCreateTimeoutFirewallRule]

/-- Witness for C9 at concrete inputs: the deploy wait fails yet the ID is
stored and its error is returned. -/
theorem create_stores_id_then_waits_witness :
    (resourceFirewallRuleCreate c9State c9Api).state.id = "rule-id-9"
    ∧ (resourceFirewallRuleCreate c9State c9Api).events =
        [CreateEvent.acquireDomainLock c9State.fields.networkdomain,
         CreateEvent.remoteCreateFirewallRule
           { buildFirewallRuleConfiguration c9State.fields with
             sourceScope := some ScopeMatch.anyMatch,
             destinationScope := some ScopeMatch.anyMatch },
         CreateEvent.setId "rule-id-9",
         CreateEvent.remoteWaitForDeploy "rule-id-9" resourceCreateTimeoutFirewallRule,
         CreateEvent.releaseDomainLock c9State.fields.networkdomain]
    ∧ resourceCreateTimeoutFirewallRule = 30 * timeMinute
    ∧ (resourceFirewallRuleCreate c9State c9Api).error =
        exceptError c9Api.waitForDeployResult :=
  create_stores_id_then_waits c9State c9Api "rule-id-9" ScopeMatch.anyMatch
    ScopeMatch.anyMatch rfl rfl rfl

/-- C10: a scope-resolution failure (malformed port or network, for either
scope) makes create return that error with an empty event trace — no domain
lock, no remote call — and the local state, including the stored ID,
unchanged. -/
theorem create_validation_error_is_local (state : ResourceState) (api : CreateApiBehavior)
    (e : String)
    (h : configureSourceScope state.fields = Except.error e ∨
      (∃ ss, configureSourceScope state.fields = Except.ok ss ∧
        configureDestinationScope state.fields = Except.error e)) :
    resourceFirewallRuleCreate state api =
      { state := state, events := [], error := some e } := by
  rcases h with h | ⟨ss, h1, h2⟩
  · simp [resourceFirewallRuleCreate, h]
  · simp [resourceFirewallRuleCreate, h1, h2]

/-- Witness for C10 at a concrete input: source port "abc" fails validation;
the pre-existing ID survives and no event happens. -/
theorem create_validation_error_is_local_witness :
    resourceFirewallRuleCreate c10State c10Api =
      { state := c10State, events := [],
        error := some "strconv.Atoi: parsing \"abc\": invalid syntax" } :=
  create_validation_error_is_local c10State c10Api
    "strconv.Atoi: parsing \"abc\": invalid syntax" (Or.inl rfl)

/-- C1 (evaluation at the failing input): with declared action "allow" the
configuration sent to the remote `CreateFirewallRule` carries the raw action
"allow", not the normalized "ACCEPT". Line 180 of the source overwrites the
normalized value computed at lines 159-161 with the raw declared string. -/
theorem create_sends_raw_action :
    createdAction (resourceFirewallRuleCreate c1State c1Api).events = some "allow"
    ∧ normalizeFirewallRuleAction "allow" = "ACCEPT"
    ∧ "allow" ≠ "ACCEPT" :=
  ⟨rfl, rfl, by decide⟩

set_option maxRecDepth 8192 in
/-- C3 counterexample: the validation error for the malformed destination
network "10.0.0.0" carries the offending value and the rule name, but labels
the field "Source network" — the message holds no occurrence of
"Destination"/"destination" at all, so it does not name the offending field
as the destination scope. -/
theorem destination_cidr_error_misnames_field :
    configureDestinationScope c3Fields =
      Except.error "Source network '10.0.0.0' for firewall rule 'my-rule' is invalid (must be 'BaseAddress/PrefixSize')"
    ∧ ("Source network".data <:+:
        "Source network '10.0.0.0' for firewall rule 'my-rule' is invalid (must be 'BaseAddress/PrefixSize')".data)
    ∧ ¬ ("estination".data <:+:
        "Source network '10.0.0.0' for firewall rule 'my-rule' is invalid (must be 'BaseAddress/PrefixSize')".data) := by
  refine ⟨rfl, ?_, ?_⟩ <;> decide

/-- C3 amended: every malformed-CIDR validation error, for either scope,
reports the offending value and the rule name inside the message; both
messages carry the label "Source network" — the destination-scope message
(source line 350) copy-pastes the source-scope format string instead of
naming the destination field. -/
theorem scope_cidr_error_reports_value_and_rule (f : FirewallRuleFields) (n : String) :
    ((getOptionalString f.sourceAddress = none ∧
      getOptionalString f.sourceNetwork = some n ∧
      exceptError (parseFirewallPort (getOptionalString f.sourcePort)) = none ∧
      (parseNetworkAndPrefix n).2.2 = false) →
      configureSourceScope f =
        Except.error ("Source network '" ++ n ++ "' for firewall rule '" ++ f.name ++
          "' is invalid (must be 'BaseAddress/PrefixSize')"))
    ∧ ((getOptionalString f.destinationAddress = none ∧
      getOptionalString f.destinationNetwork = some n ∧
      exceptError (parseFirewallPort (getOptionalString f.destinationPort)) = none ∧
      (parseNetworkAndPrefix n).2.2 = false) →
      configureDestinationScope f =
        Except.error ("Source network '" ++ n ++ "' for firewall rule '" ++ f.name ++
          "' is invalid (must be 'BaseAddress/PrefixSize')")) := by
  constructor
  · rintro ⟨ha, hn, hp, hok⟩
    rcases hq : parseFirewallPort (getOptionalString f.sourcePort) with e | sp
    · rw [hq] at hp
      simp [exceptError] at hp
    · rcases hpn : parseNetworkAndPrefix n with ⟨b, sz, ok⟩
      rw [hpn] at hok
      simp at hok
      subst hok
      simp [configureSourceScope, hq, ha, hn, hpn]
  · rintro ⟨ha, hn, hp, hok⟩
    rcases hq : parseFirewallPort (getOptionalString f.destinationPort) with e | sp
    · rw [hq] at hp
      simp [exceptError] at hp
    · rcases hpn : parseNetworkAndPrefix n with ⟨b, sz, ok⟩
      rw [hpn] at hok
      simp at hok
      subst hok
      simp [configureDestinationScope, hq, ha, hn, hpn]

end DDCloud
